import Mathlib

/-!
Verification of the customer-churn ingestion and validation pipeline.

The development shallowly embeds the two Python source files:
* `scripts/data_checks.py` (the Validator): CSV discovery, dataset-specific
  cleanup, schema validation, and business sanity checks;
* `customer_churn_prediction/data/make_dataset.py` (the Acquirer): Kaggle
  download with manifest, streaming SHA-256, atomic manifest write, and
  credential-scratch-file hygiene.

Machine values read from the CSV are modelled as `Cell`s (a string, a rational
number, or a missing value), a pandas DataFrame as a row count plus an
association list of named columns, and the filesystem state explicitly where a
claim is about it.
-/

namespace Churn

/-- A value held in one DataFrame cell: a string, a number (pandas reads CSV
numerics as int64/float64; both are embedded as rationals), or a missing value
(`None`/`NaN`). -/
inductive Cell where
  | str (s : String)
  | num (q : ℚ)
  | null
  deriving DecidableEq

/-- A pandas DataFrame: its row count (`df.shape[0]`) and its named columns,
an association list from column name to the list of cells in row order. -/
structure DataFrame where
  nrows : Nat
  cols : List (String × List Cell)
  deriving DecidableEq

/-- Column lookup, `df["name"]`: `none` models the `KeyError` raised by pandas
when the column is absent. -/
def findCol (cols : List (String × List Cell)) (name : String) : Option (List Cell) :=
  (cols.find? (fun c => c.1 == name)).map Prod.snd

/-- Column assignment `df["name"] = cells` for a column that is already
present (every assignment in `_load_and_clean_data` follows a read of the same
column, so the column exists whenever the assignment runs). -/
def setColList (cols : List (String × List Cell)) (k : String) (v : List Cell) :
    List (String × List Cell) :=
  cols.map (fun c => if c.1 == k then (c.1, v) else c)

def DataFrame.col (df : DataFrame) (name : String) : Option (List Cell) :=
  findCol df.cols name

def DataFrame.setCol (df : DataFrame) (k : String) (v : List Cell) : DataFrame :=
  { df with cols := setColList df.cols k v }

/-- `.replace({-1: None})` on the churn column: the sentinel value `-1`
becomes missing; every other cell is untouched. -/
def replaceNegOne (c : Cell) : Cell :=
  if c = Cell.num (-1) then Cell.null else c

/-- The element transform of
`df["avg_time_spent"].apply(lambda x: x if x >= 0 else None)`:
a negative number becomes missing, `NaN >= 0` is `False` so missing stays
missing, and comparing a string with `0` raises `TypeError` (modelled as
`none`). -/
def cleanTimeSpent (c : Cell) : Option Cell :=
  match c with
  | Cell.num q => some (if 0 ≤ q then Cell.num q else Cell.null)
  | Cell.null => some Cell.null
  | Cell.str _ => none

/-- Digit run to a natural number (base 10). -/
def natOfDigits (cs : List Char) : Nat :=
  cs.foldl (fun a c => 10 * a + (c.toNat - 48)) 0

/-- Model of the string parsing done by `pd.to_numeric(..., errors="coerce")`
for the plain decimal forms relevant here: optional sign, integer digits,
optional fractional digits.  Anything else (such as the literal `"Error"`
present in the raw data) coerces to missing. -/
def parseDecimal (s : String) : Option ℚ :=
  let cs := s.toList
  let signSplit : Bool × List Char :=
    match cs with
    | '-' :: rest => (true, rest)
    | '+' :: rest => (false, rest)
    | _ => (false, cs)
  let neg := signSplit.1
  let body := signSplit.2
  let ip := body.takeWhile Char.isDigit
  let rest := body.dropWhile Char.isDigit
  let finish : ℚ → Option ℚ := fun v => some (if neg then -v else v)
  match rest with
  | [] => if ip.isEmpty then none else finish (natOfDigits ip)
  | '.' :: fp =>
      if fp.all Char.isDigit && (!ip.isEmpty || !fp.isEmpty) then
        finish ((natOfDigits ip : ℚ) + (natOfDigits fp : ℚ) / ((10 : ℚ) ^ fp.length))
      else none
  | _ => none

/-- The element transform of
`pd.to_numeric(df["avg_frequency_login_days"], errors="coerce")`: numbers pass
through, parseable numeric strings become numbers, unparseable strings and
missing values become missing. -/
def toNumericCoerce (c : Cell) : Cell :=
  match c with
  | Cell.num q => Cell.num q
  | Cell.null => Cell.null
  | Cell.str s =>
      match parseDecimal s with
      | some q => Cell.num q
      | none => Cell.null

/-- Elementwise application that raises on the first failing element, as
`Series.apply` does: `none` when `f` fails on some cell, otherwise the list of
transformed cells. -/
def mapOrFail (f : Cell → Option Cell) : List Cell → Option (List Cell)
  | [] => some []
  | c :: cs =>
    match f c with
    | none => none
    | some c2 =>
      match mapOrFail f cs with
      | none => none
      | some cs2 => some (c2 :: cs2)

/-- The error raised inside `_load_and_clean_data`: a `KeyError` on a missing
designated column, or the `TypeError` from comparing a string with `0`. -/
inductive CleanError where
  | keyError (column : String)
  | typeError
  deriving DecidableEq

/-- `_load_and_clean_data` (after `pd.read_csv`): replace the `-1` sentinel in
`churn_risk_score`, null out negative `avg_time_spent`, and coerce
`avg_frequency_login_days` to numeric.  Each designated column is read before
it is assigned, so a missing column raises `KeyError` before any later step
runs. -/
def cleanData (df : DataFrame) : Except CleanError DataFrame :=
  match df.col "churn_risk_score" with
  | none => Except.error (CleanError.keyError "churn_risk_score")
  | some churn =>
    let df1 := df.setCol "churn_risk_score" (churn.map replaceNegOne)
    match df1.col "avg_time_spent" with
    | none => Except.error (CleanError.keyError "avg_time_spent")
    | some ats =>
      match mapOrFail cleanTimeSpent ats with
      | none => Except.error CleanError.typeError
      | some ats2 =>
        let df2 := df1.setCol "avg_time_spent" ats2
        match df2.col "avg_frequency_login_days" with
        | none => Except.error (CleanError.keyError "avg_frequency_login_days")
        | some afl => Except.ok (df2.setCol "avg_frequency_login_days" (afl.map toNumericCoerce))

/-- A cell is a (non-missing) string. -/
def isStrCell : Cell → Bool
  | Cell.str _ => true
  | _ => false

/-- A cell is a (non-missing) number. -/
def numCell : Cell → Bool
  | Cell.num _ => true
  | _ => false

/-- A numeric cell bounded below (`Check.ge lo` on a float column). -/
def numGe (lo : ℚ) : Cell → Bool
  | Cell.num q => decide (lo ≤ q)
  | _ => false

/-- An integer-valued cell within closed bounds (`int` dtype with `Check.ge`
and `Check.le`). -/
def intCheck (lo hi : ℚ) : Cell → Bool
  | Cell.num q => q.den == 1 && decide (lo ≤ q) && decide (q ≤ hi)
  | _ => false

/-- An integer-valued cell bounded below (`int` dtype with `Check.ge`). -/
def intGe (lo : ℚ) : Cell → Bool
  | Cell.num q => q.den == 1 && decide (lo ≤ q)
  | _ => false

/-- A string cell drawn from a fixed set (`Check.isin`). -/
def strIn (vals : List String) : Cell → Bool
  | Cell.str s => vals.contains s
  | _ => false

/-- `nullable=True`: a missing cell is accepted, otherwise the base check
applies. -/
def nullableCheck (chk : Cell → Bool) : Cell → Bool
  | Cell.null => true
  | c => chk c

/-- `nullable=False` (the pandera default): a missing cell is a violation. -/
def requiredCheck (chk : Cell → Bool) : Cell → Bool
  | Cell.null => false
  | c => chk c

/-- The fixed `DataFrameSchema` of `data_checks.py`, as one value-level check
per declared column (type, nullability, and range/membership constraints). -/
def SCHEMA : List (String × (Cell → Bool)) := [
  ("customer_id", requiredCheck isStrCell),
  ("Name", requiredCheck isStrCell),
  ("age", requiredCheck (intCheck 0 120)),
  ("gender", nullableCheck (strIn ["M", "F"])),
  ("security_no", requiredCheck isStrCell),
  ("region_category", nullableCheck isStrCell),
  ("membership_category", requiredCheck isStrCell),
  ("joining_date", requiredCheck isStrCell),
  ("joined_through_referral", nullableCheck (strIn ["Yes", "No", "?"])),
  ("referral_id", nullableCheck isStrCell),
  ("preferred_offer_types", requiredCheck isStrCell),
  ("medium_of_operation", nullableCheck isStrCell),
  ("internet_option", requiredCheck isStrCell),
  ("last_visit_time", requiredCheck isStrCell),
  ("days_since_last_login", nullableCheck (intGe 0)),
  ("avg_time_spent", nullableCheck numCell),
  ("avg_transaction_value", nullableCheck numCell),
  ("avg_frequency_login_days", nullableCheck (numGe 0)),
  ("points_in_wallet", nullableCheck (numGe 0)),
  ("used_special_discount", requiredCheck (strIn ["Yes", "No"])),
  ("offer_application_preference", requiredCheck (strIn ["Yes", "No"])),
  ("past_complaint", requiredCheck (strIn ["Yes", "No"])),
  ("complaint_status", requiredCheck isStrCell),
  ("feedback", requiredCheck isStrCell),
  ("churn_risk_score", nullableCheck (intCheck 0 5))]

/-- `SCHEMA.validate(df, lazy=True)`: collect the name of every violating
column (a missing required column, or any cell failing the column's check)
before reporting, instead of stopping at the first failure. -/
def schemaViolations (df : DataFrame) : List String :=
  SCHEMA.filterMap (fun spec =>
    match df.col spec.1 with
    | none => some spec.1
    | some cells => if cells.all spec.2 then none else some spec.1)

/-- The outcome of one run of `main` in `data_checks.py`, labelled by the
`except` branch that handles it (or success). -/
inductive RunOutcome where
  | success
  | notFound
  | schemaFailure (columns : List String)
  | sanityRowCount
  | sanityUniqueId
  | sanityChurnMean
  | unexpected
  deriving DecidableEq

/-- `df["churn_risk_score"].mean()`: the mean of the non-missing numeric
values; `none` models the `NaN` produced when no such value exists. -/
def churnMean (cells : List Cell) : Option ℚ :=
  let vals := cells.filterMap (fun c =>
    match c with
    | Cell.num q => some q
    | _ => none)
  if vals.isEmpty then none else some (vals.sum / (vals.length : ℚ))

/-- `_run_sanity_checks`: the three assertions in program order — row count
above 100, unique `customer_id`, and mean churn risk score within
`[1.0, 4.0]`.  A `NaN` mean fails the bound check, as in Python.  A missing
column here would raise `KeyError`, handled by the generic branch. -/
def sanityChecks (df : DataFrame) : RunOutcome :=
  if df.nrows ≤ 100 then RunOutcome.sanityRowCount
  else
    match df.col "customer_id" with
    | none => RunOutcome.unexpected
    | some ids =>
      if !(decide ids.Nodup) then RunOutcome.sanityUniqueId
      else
        match df.col "churn_risk_score" with
        | none => RunOutcome.unexpected
        | some churn =>
          match churnMean churn with
          | none => RunOutcome.sanityChurnMean
          | some m =>
              if decide (1 ≤ m) && decide (m ≤ 4) then RunOutcome.success
              else RunOutcome.sanityChurnMean

/-- The validation pipeline of `main` applied to a loaded DataFrame: cleanup
(whose `KeyError`/`TypeError` fall through to the generic `except Exception`
branch), then schema validation (raising `SchemaErrors` when any column
violates), then the sanity checks. -/
def runDataChecks (df : DataFrame) : RunOutcome :=
  match cleanData df with
  | Except.error _ => RunOutcome.unexpected
  | Except.ok cleaned =>
    let violations := schemaViolations cleaned
    if violations.isEmpty then sanityChecks cleaned
    else RunOutcome.schemaFailure violations

/-- The process exit code produced by `main` for each outcome: `0` on success
and `exit(1)` from every handler. -/
def exitCode : RunOutcome → Nat
  | RunOutcome.success => 0
  | _ => 1

/-- `glob` matching of the pattern `*.csv` on one file name: the `.csv`
extension, with names starting with a dot excluded (the `glob` module does not
match hidden files with `*`). -/
def globMatchesCsv (name : String) : Bool :=
  (".csv".toList.isSuffixOf name.toList) &&
    !(match name.toList with
      | '.' :: _ => true
      | _ => false)

/-- `_find_first_csv_path`: `glob.glob(os.path.join(RAW_DIR, "*.csv"))`
returns the matching names in the directory's enumeration order (the `glob`
module does not sort), each prefixed with the directory; the function returns
`paths[0]`, or raises `FileNotFoundError` when no name matches.  `listing` is
the enumeration order of the file names in `data/raw`. -/
def findFirstCsvPath (listing : List String) : Except Unit String :=
  match (listing.filter globMatchesCsv).map (fun n => "data/raw/" ++ n) with
  | [] => Except.error ()
  | p :: _ => Except.ok p

/-- A column holding the same cell in every row. -/
def colConst (n : Nat) (name : String) (c : Cell) : String × List Cell :=
  (name, List.replicate n c)

/-- Pairwise-distinct customer identifiers for a synthetic input: row `i`
holds the string of `i` repetitions of `a`. -/
def uniqueIds (n : Nat) : List Cell :=
  (List.range n).map (fun i => Cell.str (String.mk (List.replicate i 'a')))

/-- A synthetic well-formed `n`-row input matching the declared schema:
unique identifiers, constant valid values in every other column, and a
constant designated outcome column. -/
def syntheticDf (n : Nat) (churnCell : Cell) : DataFrame :=
  { nrows := n
    cols := [
      ("customer_id", uniqueIds n),
      colConst n "Name" (Cell.str "A"),
      colConst n "age" (Cell.num 30),
      colConst n "gender" (Cell.str "M"),
      colConst n "security_no" (Cell.str "S1"),
      colConst n "region_category" (Cell.str "City"),
      colConst n "membership_category" (Cell.str "Basic Membership"),
      colConst n "joining_date" (Cell.str "2020-01-01"),
      colConst n "joined_through_referral" (Cell.str "Yes"),
      colConst n "referral_id" (Cell.str "R1"),
      colConst n "preferred_offer_types" (Cell.str "Gift Vouchers"),
      colConst n "medium_of_operation" (Cell.str "Desktop"),
      colConst n "internet_option" (Cell.str "Wi-Fi"),
      colConst n "last_visit_time" (Cell.str "12:00:00"),
      colConst n "days_since_last_login" (Cell.num 3),
      colConst n "avg_time_spent" (Cell.num 50),
      colConst n "avg_transaction_value" (Cell.num 900),
      colConst n "avg_frequency_login_days" (Cell.num 10),
      colConst n "points_in_wallet" (Cell.num 600),
      colConst n "used_special_discount" (Cell.str "Yes"),
      colConst n "offer_application_preference" (Cell.str "No"),
      colConst n "past_complaint" (Cell.str "No"),
      colConst n "complaint_status" (Cell.str "Not Applicable"),
      colConst n "feedback" (Cell.str "Good"),
      colConst n "churn_risk_score" churnCell] }

/-!  The Acquirer (`make_dataset.py`). -/

/-- A filesystem entry under the output directory: its path components
relative to that directory, whether it is a directory, and (for a regular
file) its byte content. -/
structure FsEntry where
  path : List String
  isDir : Bool
  content : List Nat
  deriving DecidableEq

/-- `str(p)` for an entry found by `out_dir.rglob`: the output directory
followed by the entry's components. -/
def entryPath (outDir : String) (e : FsEntry) : String :=
  String.intercalate "/" (outDir :: e.path)

/-- `p.name`: the final path component. -/
def fileName (e : FsEntry) : String :=
  e.path.getLastD ""

/-- `h.update(chunk)` on a `hashlib` object: the digest is a pure function of
the byte sequence fed so far, so the hash state is that sequence. -/
def hashUpdate (state chunk : List Nat) : List Nat :=
  state ++ chunk

/-- The successive chunks returned by `iter(lambda: f.read(m + 1), b"")`:
the file content split into pieces of size `m + 1` (the size is carried as a
predecessor so that every modelled chunk size is positive, as any actual read
size is). -/
def chunksOf1 (m : Nat) (l : List Nat) : List (List Nat) :=
  match l with
  | [] => []
  | x :: xs => ((x :: xs).take (m + 1)) :: chunksOf1 m (xs.drop m)
termination_by l.length
decreasing_by
  simp only [List.length_cons, List.length_drop]
  omega

/-- `_sha256` with read size `m + 1`: fold the streaming update over the
chunks starting from the empty hash state, then take the digest.  The digest
function itself (`hashlib`'s SHA-256 compression) is external library code,
so it is a parameter `sha` of the model. -/
def sha256Streamed (sha : List Nat → String) (m : Nat) (content : List Nat) : String :=
  sha ((chunksOf1 m content).foldl hashUpdate [])

/-- `_sha256` as written: streaming SHA-256 with fixed 1 MiB read chunks. -/
def sha256File (sha : List Nat → String) (content : List Nat) : String :=
  sha256Streamed sha (1024 * 1024 - 1) content

/-- One entry of the manifest's `files` list. -/
structure FileRecord where
  path : String
  size : Nat
  sha256 : String
  deriving DecidableEq

/-- The manifest returned by `download` and serialized to `manifest.json`. -/
structure Manifest where
  dataset : String
  downloadedAt : String
  unzip : Bool
  files : List FileRecord
  deriving DecidableEq

/-- The name of the manifest file, `self.manifest_path.name`. -/
def manifestFileName : String := "manifest.json"

/-- The record `_build_manifest` computes for one file: its path string, its
size (`st_size`, the byte count), and its streaming SHA-256 digest. -/
def mkFileRecord (sha : List Nat → String) (outDir : String) (e : FsEntry) : FileRecord :=
  { path := entryPath outDir e, size := e.content.length, sha256 := sha256File sha e.content }

/-- `_build_manifest`: enumerate the output directory recursively, keep the
regular files whose name is not `manifest.json`, and record each. -/
def buildManifest (sha : List Nat → String) (slug t : String) (uz : Bool) (outDir : String)
    (entries : List FsEntry) : Manifest :=
  { dataset := slug, downloadedAt := t, unzip := uz,
    files := (entries.filter (fun e => !e.isDir && !(fileName e == manifestFileName))).map
      (mkFileRecord sha outDir) }

/-- What sits at `manifest.json` on disk: a manifest that parses back, or
content that `json.loads` (or the read itself) fails on. -/
inductive ManifestDisk where
  | valid (m : Manifest)
  | corrupt
  deriving DecidableEq

/-- The filesystem state `download` acts on: the entries under the output
directory (the manifest file is tracked separately) and the manifest path's
content, if any. -/
structure DiskState where
  entries : List FsEntry
  manifest : Option ManifestDisk
  deriving DecidableEq

/-- `_read_manifest`: `none` models the exception raised when the file is
absent or its content does not parse. -/
def readManifest (s : DiskState) : Option Manifest :=
  match s.manifest with
  | some (ManifestDisk.valid m) => some m
  | _ => none

/-- The path strings for which `Path(...).exists()` is true. -/
def diskPaths (outDir : String) (s : DiskState) : List String :=
  s.entries.map (entryPath outDir)

/-- `_is_already_downloaded`: false when the manifest is absent or unreadable,
otherwise true iff at least one listed file still exists on disk. -/
def isAlreadyDownloaded (outDir : String) (s : DiskState) : Bool :=
  match s.manifest with
  | some (ManifestDisk.valid m) =>
      m.files.any (fun r => (diskPaths outDir s).contains r.path)
  | _ => false

/-- The effect of `dataset_download_files` on the directory: fetched entries
overwrite same-path entries and are added alongside the remaining ones. -/
def overwriteEntries (old new : List FsEntry) : List FsEntry :=
  new ++ old.filter (fun e => !((new.map FsEntry.path).contains e.path))

/-- The result of one `download` call: the directory state after it, the
returned manifest, and whether the remote fetch ran. -/
structure DownloadResult where
  state : DiskState
  manifest : Manifest
  fetched : Bool
  deriving DecidableEq

/-- The fetch-and-rebuild path of `download`: authenticate and fetch (the
fetched entries are the `fetch` parameter), rebuild the manifest over the
directory, and write it atomically. -/
def performFetch (sha : List Nat → String) (slug t : String) (uz : Bool) (outDir : String)
    (fetch : List FsEntry) (s : DiskState) : DownloadResult :=
  let entries2 := overwriteEntries s.entries fetch
  let m2 := buildManifest sha slug t uz outDir entries2
  { state := { entries := entries2, manifest := some (ManifestDisk.valid m2) },
    manifest := m2, fetched := true }

/-- `KaggleDatasetIngestor.download`: skip and return the stored manifest when
`_is_already_downloaded()` holds and `force` is false, otherwise fetch and
rebuild.  (When the skip guard holds, `readManifest` is necessarily `some`;
the `none` arm is unreachable.) -/
def download (sha : List Nat → String) (slug t : String) (uz : Bool) (outDir : String)
    (force : Bool) (fetch : List FsEntry) (s : DiskState) : DownloadResult :=
  if isAlreadyDownloaded outDir s && !force then
    match readManifest s with
    | some m => { state := s, manifest := m, fetched := false }
    | none => performFetch sha slug t uz outDir fetch s
  else performFetch sha slug t uz outDir fetch s

/-- The observable content of the manifest path and its sibling temporary
path at one instant. -/
structure ManifestPathState where
  target : Option String
  tmp : Option String
  deriving DecidableEq

/-- The instants of `_write_json_atomic`, in order: the initial state, the
states while the temporary sibling file fills up byte by byte (every prefix of
the payload), and the state after `tmp.replace(path)` renames the complete
temporary file over the target. -/
def writeJsonAtomicTrace (init : ManifestPathState) (payload : String) :
    List ManifestPathState :=
  (init ::
    (List.range (payload.length + 1)).map
      (fun k => { target := init.target, tmp := some (payload.take k) })) ++
  [{ target := some payload, tmp := none }]

/-- Kaggle credentials resolved from the environment (`KAGGLE_USERNAME`,
`KAGGLE_API_KEY`) or supplied by the caller. -/
structure KaggleCreds where
  username : Option String
  key : Option String
  deriving DecidableEq

/-- How the authenticate-and-fetch body ends: authentication rejects, the
transfer fails, or everything succeeds. -/
inductive FetchOutcome where
  | authFailure
  | transferFailure
  | ok
  deriving DecidableEq

/-- The error propagated out of `_authenticate_and_download`. -/
inductive KaggleError where
  | authError
  | transferError
  deriving DecidableEq

/-- The exception the body of the `try` raises for each outcome. -/
def primaryError : FetchOutcome → Option KaggleError
  | FetchOutcome.authFailure => some KaggleError.authError
  | FetchOutcome.transferFailure => some KaggleError.transferError
  | FetchOutcome.ok => none

/-- The scratch credential file `.kaggle_runtime/kaggle.json`: its content and
its permission bits. -/
structure ScratchFile where
  content : String
  mode : Nat
  deriving DecidableEq

/-- `json.dumps({"username": u, "key": k})`. -/
def credsPayload (u k : String) : String :=
  "\x7b\"username\": \"" ++ u ++ "\", \"key\": \"" ++ k ++ "\"\x7d"

/-- `stat.S_IRUSR | stat.S_IWUSR`: owner read/write only. -/
def modeOwnerRW : Nat := 0o600

/-- `api.authenticate()` followed by `api.dataset_download_files(...)`,
expressed by the outcome of the run. -/
def runFetchBody (outcome : FetchOutcome) : Except KaggleError Unit :=
  match outcome with
  | FetchOutcome.authFailure => Except.error KaggleError.authError
  | FetchOutcome.transferFailure => Except.error KaggleError.transferError
  | FetchOutcome.ok => Except.ok ()

/-- The `finally` block: when a runtime config dir was created, unlink its
files and remove it, inside a `try`/`except` that swallows any cleanup
failure (`cleanupFails` true) so it cannot mask the body's exception. -/
def cleanupRuntimeDir (cleanupFails : Bool) (scratch : Option ScratchFile) :
    Option ScratchFile :=
  match scratch with
  | none => none
  | some s => if cleanupFails then some s else none

/-- The observable result of `_authenticate_and_download`. -/
structure AuthRun where
  scratchDuringFetch : Option ScratchFile
  scratchAfter : Option ScratchFile
  runtimeDirAfter : Bool
  envConfigDirSet : Bool
  raised : Option KaggleError
  deriving DecidableEq

/-- `_authenticate_and_download`: when both environment credentials are
present, write them to `.kaggle_runtime/kaggle.json` with mode `0o600` and
point `KAGGLE_CONFIG_DIR` at it; run the authenticate-and-fetch body; in the
`finally` block remove the scratch file and directory, swallowing cleanup
failures.  The raised error is the body's error regardless of cleanup. -/
def authenticateAndDownload (creds : KaggleCreds) (outcome : FetchOutcome)
    (cleanupFails : Bool) : AuthRun :=
  let scratch : Option ScratchFile :=
    match creds.username, creds.key with
    | some u, some k => some { content := credsPayload u k, mode := modeOwnerRW }
    | _, _ => none
  let bodyResult := runFetchBody outcome
  let after := cleanupRuntimeDir cleanupFails scratch
  { scratchDuringFetch := scratch
    scratchAfter := after
    runtimeDirAfter := scratch.isSome && cleanupFails
    envConfigDirSet := scratch.isSome
    raised :=
      match bodyResult with
      | Except.error e => some e
      | Except.ok _ => none }


/-- A concrete digest function standing in for SHA-256 when a closed theorem
needs the `sha` parameter instantiated. -/
def shaLen : List Nat → String := fun bytes => toString bytes.length

lemma foldl_hashUpdate (cs : List (List Nat)) (acc : List Nat) :
    cs.foldl hashUpdate acc = acc ++ cs.flatten := by
  induction cs generalizing acc with
  | nil => simp
  | cons c cs ih => simp [hashUpdate, ih]

lemma flatten_chunksOf1 (m : Nat) (l : List Nat) : (chunksOf1 m l).flatten = l := by
  induction l using chunksOf1.induct m with
  | case1 => simp [chunksOf1]
  | case2 x xs ih =>
      rw [chunksOf1]
      simp only [List.flatten_cons, ih, List.take_succ_cons, List.cons_append]
      rw [List.take_append_drop]

lemma sha256Streamed_eq (sha : List Nat → String) (m : Nat) (content : List Nat) :
    sha256Streamed sha m content = sha content := by
  unfold sha256Streamed
  rw [foldl_hashUpdate, flatten_chunksOf1]
  rfl

/-- Claim C7: the digest recorded for a file equals the SHA-256 of the full
byte content: folding the streaming update over successive fixed-size chunks
(any positive chunk size `m + 1`, in particular the 1 MiB used by the code)
feeds the hash exactly the concatenated bytes, so the digest is that of the
whole content. -/
theorem C7_checksum_chunk_independence (sha : List Nat → String) (m : Nat)
    (content : List Nat) (outDir : String) (e : FsEntry) :
    sha256Streamed sha m content = sha content ∧
    sha256File sha content = sha content ∧
    (mkFileRecord sha outDir e).sha256 = sha e.content :=
  ⟨sha256Streamed_eq sha m content, sha256Streamed_eq sha _ content,
    sha256Streamed_eq sha _ e.content⟩

/-- Claim C5: the manifest write is atomic.  Along the whole trace of
`_write_json_atomic` the manifest path holds either the prior content (or
nothing) or the complete new payload; at every instant before the final
rename — in particular after the temporary file is fully written — the prior
content is still intact, and after the rename the path holds the complete
payload. -/
theorem C5_atomic_manifest_write (init : ManifestPathState) (payload : String) :
    (∀ st ∈ writeJsonAtomicTrace init payload,
      st.target = init.target ∨ st.target = some payload) ∧
    (∀ st ∈ (writeJsonAtomicTrace init payload).dropLast, st.target = init.target) ∧
    ((writeJsonAtomicTrace init payload).getLastD init).target = some payload := by
  refine ⟨?_, ?_, ?_⟩
  · intro st hst
    simp only [writeJsonAtomicTrace, List.mem_append, List.mem_cons, List.mem_map,
      List.mem_range, List.not_mem_nil, or_false] at hst
    rcases hst with (rfl | ⟨k, _, rfl⟩) | rfl
    · exact Or.inl rfl
    · exact Or.inl rfl
    · exact Or.inr rfl
  · intro st hst
    rw [writeJsonAtomicTrace, List.dropLast_concat] at hst
    rcases List.mem_cons.mp hst with rfl | hst
    · rfl
    · rcases List.mem_map.mp hst with ⟨k, _, rfl⟩
      rfl
  · rw [writeJsonAtomicTrace, List.getLastD_concat]

/-- Claim C5 witness at a concrete prior state and payload. -/
theorem C5_atomic_manifest_write_witness :
    ({ target := some "old", tmp := none } : ManifestPathState).target = some "old" ∨
    ({ target := some "old", tmp := none } : ManifestPathState).target = some "xy" :=
  (C5_atomic_manifest_write { target := some "old", tmp := none } "xy").1
    { target := some "old", tmp := none } (by decide)

/-- Claim C6: whenever both environment credentials are present, the run
writes them to the scratch file with owner-read/write-only permissions, the
error propagated out of the call is exactly the one the body raised (the
swallowed cleanup can never mask it), and — whenever the best-effort removal
itself does not fail — no credential scratch file and no runtime config
directory survives the call, on the success path and on both failure paths. -/
theorem C6_credential_hygiene (u k : String) (outcome : FetchOutcome) (cleanupFails : Bool) :
    (authenticateAndDownload ⟨some u, some k⟩ outcome cleanupFails).scratchDuringFetch =
      some { content := credsPayload u k, mode := modeOwnerRW } ∧
    (authenticateAndDownload ⟨some u, some k⟩ outcome cleanupFails).raised =
      primaryError outcome ∧
    (cleanupFails = false →
      (authenticateAndDownload ⟨some u, some k⟩ outcome cleanupFails).scratchAfter = none ∧
      (authenticateAndDownload ⟨some u, some k⟩ outcome cleanupFails).runtimeDirAfter = false) := by
  refine ⟨rfl, ?_, ?_⟩
  · cases outcome <;> rfl
  · rintro rfl
    exact ⟨rfl, rfl⟩

/-- Claim C6 witness: a concrete failing fetch with environment credentials
and successful cleanup leaves no scratch file. -/
theorem C6_credential_hygiene_witness :
    (authenticateAndDownload ⟨some "u", some "k"⟩ FetchOutcome.transferFailure false).scratchAfter =
      none :=
  ((C6_credential_hygiene "u" "k" FetchOutcome.transferFailure false).2.2 rfl).1


/-- Claim C9: an existing but unreadable/unparseable manifest makes the
already-downloaded check return false instead of propagating the error, so a
`force=false` download runs the full fetch and atomically replaces the corrupt
manifest with the freshly built one. -/
theorem C9_corrupt_manifest_refetch (sha : List Nat → String) (slug t : String) (uz : Bool)
    (outDir : String) (fetch : List FsEntry) (s : DiskState)
    (h : s.manifest = some ManifestDisk.corrupt) :
    isAlreadyDownloaded outDir s = false ∧
    download sha slug t uz outDir false fetch s = performFetch sha slug t uz outDir fetch s ∧
    (download sha slug t uz outDir false fetch s).fetched = true ∧
    (download sha slug t uz outDir false fetch s).state.manifest =
      some (ManifestDisk.valid
        (buildManifest sha slug t uz outDir (overwriteEntries s.entries fetch))) := by
  have h1 : isAlreadyDownloaded outDir s = false := by
    unfold isAlreadyDownloaded
    rw [h]
  have h2 : download sha slug t uz outDir false fetch s =
      performFetch sha slug t uz outDir fetch s := by
    unfold download
    rw [h1]
    simp
  refine ⟨h1, h2, ?_, ?_⟩
  · rw [h2]
    rfl
  · rw [h2]
    rfl

/-- Claim C9 witness: a concrete state whose manifest path holds corrupt
content. -/
theorem C9_corrupt_manifest_refetch_witness :
    isAlreadyDownloaded "data/raw"
      { entries := [], manifest := some ManifestDisk.corrupt } = false :=
  (C9_corrupt_manifest_refetch shaLen "d" "t" true "data/raw" [] _ rfl).1

lemma isAlreadyDownloaded_of (outDir : String) (s : DiskState) (m : Manifest)
    (hm : s.manifest = some (ManifestDisk.valid m))
    (hex : ∃ r ∈ m.files, r.path ∈ diskPaths outDir s) :
    isAlreadyDownloaded outDir s = true := by
  unfold isAlreadyDownloaded
  rw [hm, List.any_eq_true]
  obtain ⟨r, hr, hp⟩ := hex
  exact ⟨r, hr, List.elem_iff.mpr hp⟩

lemma download_skip (sha : List Nat → String) (slug t : String) (uz : Bool) (outDir : String)
    (fetch : List FsEntry) (s : DiskState) (m : Manifest)
    (hm : s.manifest = some (ManifestDisk.valid m))
    (hex : ∃ r ∈ m.files, r.path ∈ diskPaths outDir s) :
    download sha slug t uz outDir false fetch s =
      { state := s, manifest := m, fetched := false } := by
  have had := isAlreadyDownloaded_of outDir s m hm hex
  unfold download
  rw [had]
  simp [readManifest, hm]

lemma isAlreadyDownloaded_spec (outDir : String) (s : DiskState)
    (h : isAlreadyDownloaded outDir s = true) :
    ∃ m, s.manifest = some (ManifestDisk.valid m) ∧
      m.files.any (fun r => (diskPaths outDir s).contains r.path) = true := by
  unfold isAlreadyDownloaded at h
  cases hs : s.manifest with
  | none => rw [hs] at h; cases h
  | some md =>
      cases md with
      | corrupt => rw [hs] at h; cases h
      | valid m => exact ⟨m, rfl, by rw [hs] at h; exact h⟩

lemma download_fetch (sha : List Nat → String) (slug t : String) (uz : Bool) (outDir : String)
    (fetch : List FsEntry) (s : DiskState)
    (h : isAlreadyDownloaded outDir s = false) :
    download sha slug t uz outDir false fetch s = performFetch sha slug t uz outDir fetch s := by
  unfold download
  rw [h]
  simp

/-- Claim C3 (amended): when a readable manifest exists and at least one
listed file still exists, a `force=false` download returns the stored manifest
unchanged without fetching; and two consecutive `force=false` calls with
identical arguments and no intervening directory change fetch at most once and
return identical manifests, provided the fetch deposits at least one regular
file not named `manifest.json` (with an empty fetch result, the rebuilt
manifest lists no file, so the liveness check keeps failing). -/
theorem C3_amended (sha : List Nat → String) (slug : String) (uz : Bool) (outDir : String) :
    (∀ (s : DiskState) (m : Manifest) (fetch : List FsEntry) (t : String),
      s.manifest = some (ManifestDisk.valid m) →
      (∃ r ∈ m.files, r.path ∈ diskPaths outDir s) →
      download sha slug t uz outDir false fetch s =
        { state := s, manifest := m, fetched := false }) ∧
    (∀ (s : DiskState) (fetch : List FsEntry) (t1 t2 : String),
      (∃ e ∈ fetch, e.isDir = false ∧ fileName e ≠ manifestFileName) →
      ((download sha slug t1 uz outDir false fetch s).fetched = false ∨
        (download sha slug t2 uz outDir false fetch
          (download sha slug t1 uz outDir false fetch s).state).fetched = false) ∧
      (download sha slug t2 uz outDir false fetch
          (download sha slug t1 uz outDir false fetch s).state).manifest =
        (download sha slug t1 uz outDir false fetch s).manifest) := by
  constructor
  · intro s m fetch t hm hex
    exact download_skip sha slug t uz outDir fetch s m hm hex
  · rintro s fetch t1 t2 ⟨e, he, hdir, hname⟩
    by_cases had : isAlreadyDownloaded outDir s = true
    · obtain ⟨m, hm, hany⟩ := isAlreadyDownloaded_spec outDir s had
      have hex : ∃ r ∈ m.files, r.path ∈ diskPaths outDir s := by
        rw [List.any_eq_true] at hany
        obtain ⟨r, hr, hc⟩ := hany
        exact ⟨r, hr, List.elem_iff.mp hc⟩
      have hr1 := download_skip sha slug t1 uz outDir fetch s m hm hex
      have hr2 := download_skip sha slug t2 uz outDir fetch s m hm hex
      rw [hr1]
      exact ⟨Or.inl rfl, by rw [hr2]⟩
    · have had2 : isAlreadyDownloaded outDir s = false := by
        simpa using had
      have hr1 := download_fetch sha slug t1 uz outDir fetch s had2
      have hmem2 : e ∈ overwriteEntries s.entries fetch := by
        unfold overwriteEntries
        exact List.mem_append_left _ he
      have hrec : mkFileRecord sha outDir e ∈
          (buildManifest sha slug t1 uz outDir (overwriteEntries s.entries fetch)).files := by
        unfold buildManifest
        exact List.mem_map_of_mem _ (List.mem_filter.mpr ⟨hmem2, by simp [hdir, hname]⟩)
      have hstate : (performFetch sha slug t1 uz outDir fetch s).state =
          { entries := overwriteEntries s.entries fetch,
            manifest := some (ManifestDisk.valid
              (buildManifest sha slug t1 uz outDir (overwriteEntries s.entries fetch))) } := rfl
      have hpath : (mkFileRecord sha outDir e).path ∈
          diskPaths outDir (performFetch sha slug t1 uz outDir fetch s).state := by
        rw [hstate]
        exact List.mem_map_of_mem _ hmem2
      have hr2 := download_skip sha slug t2 uz outDir fetch
        (performFetch sha slug t1 uz outDir fetch s).state
        (buildManifest sha slug t1 uz outDir (overwriteEntries s.entries fetch))
        (by rw [hstate]) ⟨mkFileRecord sha outDir e, hrec, hpath⟩
      rw [hr1, hr2]
      exact ⟨Or.inr rfl, rfl⟩

/-- Claim C3 witness: with a one-file fetch result, the second of two
consecutive calls returns the same manifest as the first. -/
theorem C3_amended_witness :
    (download shaLen "d" "t2" true "data/raw" false [⟨["a.csv"], false, [7]⟩]
      (download shaLen "d" "t1" true "data/raw" false [⟨["a.csv"], false, [7]⟩]
        ⟨[], none⟩).state).manifest =
    (download shaLen "d" "t1" true "data/raw" false [⟨["a.csv"], false, [7]⟩]
      ⟨[], none⟩).manifest :=
  ((C3_amended shaLen "d" true "data/raw").2 ⟨[], none⟩ [⟨["a.csv"], false, [7]⟩] "t1" "t2"
    ⟨⟨["a.csv"], false, [7]⟩, by decide, rfl, by decide⟩).2

/-- Claim C3 counterexample: with an empty fetch result (an empty dataset),
the rebuilt manifest lists no files, so the second identical `force=false`
call fetches again — two consecutive calls perform two fetches and return
manifests with different timestamps. -/
theorem C3_counterexample :
    (download shaLen "d" "t1" true "data/raw" false [] ⟨[], none⟩).fetched = true ∧
    (download shaLen "d" "t2" true "data/raw" false []
      (download shaLen "d" "t1" true "data/raw" false [] ⟨[], none⟩).state).fetched = true ∧
    (download shaLen "d" "t1" true "data/raw" false [] ⟨[], none⟩).manifest.downloadedAt =
      "t1" ∧
    (download shaLen "d" "t2" true "data/raw" false []
      (download shaLen "d" "t1" true "data/raw" false []
        ⟨[], none⟩).state).manifest.downloadedAt = "t2" :=
  ⟨rfl, rfl, rfl, rfl⟩

/-- Claim C4 (amended): under distinct entry paths, the manifest contains
exactly one record — path, size, streaming SHA-256 digest — for every regular
file under the output directory whose file name is not `manifest.json`, and
nothing else; the exclusion is by file name, so it removes every file named
`manifest.json` at any depth, not only the manifest itself. -/
theorem C4_amended (sha : List Nat → String) (slug t : String) (uz : Bool) (outDir : String)
    (entries : List FsEntry) (hnd : (entries.map (entryPath outDir)).Nodup) :
    ((buildManifest sha slug t uz outDir entries).files.map FileRecord.path).Nodup ∧
    (∀ e ∈ entries, e.isDir = false → fileName e ≠ manifestFileName →
      mkFileRecord sha outDir e ∈ (buildManifest sha slug t uz outDir entries).files) ∧
    (∀ r ∈ (buildManifest sha slug t uz outDir entries).files,
      ∃ e, e ∈ entries ∧ e.isDir = false ∧ fileName e ≠ manifestFileName ∧
        r = mkFileRecord sha outDir e) := by
  refine ⟨?_, ?_, ?_⟩
  · have hmaps : (buildManifest sha slug t uz outDir entries).files.map FileRecord.path =
        (entries.filter fun e => !e.isDir && !(fileName e == manifestFileName)).map
          (entryPath outDir) := by
      unfold buildManifest
      rw [List.map_map]
      rfl
    rw [hmaps]
    exact hnd.sublist ((List.filter_sublist entries).map (entryPath outDir))
  · intro e he hdir hname
    unfold buildManifest
    exact List.mem_map_of_mem _ (List.mem_filter.mpr ⟨he, by simp [hdir, hname]⟩)
  · intro r hr
    unfold buildManifest at hr
    obtain ⟨e, hef, rfl⟩ := List.mem_map.mp hr
    obtain ⟨he, hp⟩ := List.mem_filter.mp hef
    simp only [Bool.and_eq_true, Bool.not_eq_true', beq_eq_false_iff_ne] at hp
    exact ⟨e, he, hp.1, hp.2, rfl⟩

/-- Claim C4 witness: a single regular file named `a.csv` gets its record. -/
theorem C4_amended_witness :
    mkFileRecord shaLen "data/raw" ⟨["a.csv"], false, [1, 2]⟩ ∈
      (buildManifest shaLen "d" "t" true "data/raw" [⟨["a.csv"], false, [1, 2]⟩]).files :=
  (C4_amended shaLen "d" "t" true "data/raw" [⟨["a.csv"], false, [1, 2]⟩] (by decide)).2.1
    ⟨["a.csv"], false, [1, 2]⟩ (by decide) rfl (by decide)

/-- Claim C4 counterexample: a regular file `sub/manifest.json` is not the
manifest itself, yet the built manifest records only `a.csv` — the name-based
filter also excludes nested files that merely share the manifest name. -/
theorem C4_counterexample :
    ((buildManifest shaLen "d" "t" true "data/raw"
        [⟨["a.csv"], false, [1]⟩, ⟨["sub"], true, []⟩,
          ⟨["sub", "manifest.json"], false, [2]⟩]).files.map FileRecord.path) =
      ["data/raw/a.csv"] ∧
    entryPath "data/raw" ⟨["sub", "manifest.json"], false, [2]⟩ =
      "data/raw/sub/manifest.json" ∧
    (((buildManifest shaLen "d" "t" true "data/raw"
        [⟨["a.csv"], false, [1]⟩, ⟨["sub"], true, []⟩,
          ⟨["sub", "manifest.json"], false, [2]⟩]).files.map FileRecord.path).contains
      "data/raw/sub/manifest.json") = false :=
  ⟨rfl, rfl, rfl⟩


/-- Claim C2 (amended): the input-location step fails with `NotFoundError`
exactly when the directory contains no CSV-extension file; otherwise it
returns the first CSV-extension file in the directory's enumeration order —
`glob.glob` does not sort, so this need not be the lexicographically-first
one. -/
theorem C2_amended (listing : List String) :
    (findFirstCsvPath listing = Except.error () ↔ ∀ n ∈ listing, globMatchesCsv n = false) ∧
    (∀ p, findFirstCsvPath listing = Except.ok p →
      ∃ pre rest name, listing = pre ++ name :: rest ∧
        (∀ n ∈ pre, globMatchesCsv n = false) ∧ globMatchesCsv name = true ∧
        p = "data/raw/" ++ name) := by
  induction listing with
  | nil =>
      constructor
      · simp [findFirstCsvPath]
      · intro p hp
        simp [findFirstCsvPath] at hp
  | cons x xs ih =>
      by_cases hx : globMatchesCsv x = true
      · have hfx : findFirstCsvPath (x :: xs) = Except.ok ("data/raw/" ++ x) := by
          unfold findFirstCsvPath
          rw [List.filter_cons_of_pos hx]
          rfl
        constructor
        · rw [hfx]
          constructor
          · intro habs
            cases habs
          · intro hall
            have := hall x (List.mem_cons_self x xs)
            rw [hx] at this
            cases this
        · intro p hp
          rw [hfx] at hp
          injection hp with hp
          refine ⟨[], xs, x, rfl, ?_, hx, hp.symm⟩
          intro n hn
          exact absurd hn (List.not_mem_nil n)
      · have hx2 : globMatchesCsv x = false := by
          simpa using hx
        have hfx : findFirstCsvPath (x :: xs) = findFirstCsvPath xs := by
          unfold findFirstCsvPath
          rw [List.filter_cons_of_neg (by simp [hx2])]
        constructor
        · rw [hfx, ih.1]
          constructor
          · intro h n hn
            rcases List.mem_cons.mp hn with rfl | hn
            · exact hx2
            · exact h n hn
          · intro h n hn
            exact h n (List.mem_cons_of_mem x hn)
        · intro p hp
          rw [hfx] at hp
          obtain ⟨pre, rest, name, heq, hpre, hname, hp2⟩ := ih.2 p hp
          refine ⟨x :: pre, rest, name, by rw [heq]; rfl, ?_, hname, hp2⟩
          intro n hn
          rcases List.mem_cons.mp hn with rfl | hn
          · exact hx2
          · exact hpre n hn

/-- Claim C2 witness: a directory with no CSV file yields the not-found
error. -/
theorem C2_amended_witness : findFirstCsvPath ["x.txt"] = Except.error () :=
  (C2_amended ["x.txt"]).1.mpr (by decide)

/-- Claim C2 counterexample: when the enumeration order lists `b.csv` before
`a.csv`, the code returns `b.csv` even though `a.csv` is a CSV file in the
same directory that is lexicographically smaller (strictly below it in the
character-sequence order) — the selection is not lexicographically-first. -/
theorem C2_counterexample :
    findFirstCsvPath ["b.csv", "a.csv"] = Except.ok "data/raw/b.csv" ∧
    globMatchesCsv "a.csv" = true ∧ "a.csv".toList < "b.csv".toList :=
  ⟨rfl, by decide, by decide⟩


lemma findCol_cons (c : String × List Cell) (cs : List (String × List Cell)) (m : String) :
    findCol (c :: cs) m = if c.1 == m then some c.2 else findCol cs m := by
  unfold findCol
  rw [List.find?_cons]
  cases h : c.1 == m <;> simp [h]

lemma findCol_setColList_ne (cols : List (String × List Cell)) (k : String) (v : List Cell)
    (m : String) (h : m ≠ k) :
    findCol (setColList cols k v) m = findCol cols m := by
  induction cols with
  | nil => rfl
  | cons c cs ih =>
      simp only [setColList, List.map_cons]
      by_cases hk : (c.1 == k) = true
      · have hm : (c.1 == m) = false := by
          rw [beq_eq_false_iff_ne]
          intro hcm
          exact h (hcm.symm.trans (beq_iff_eq.mp hk))
        rw [if_pos hk, findCol_cons, findCol_cons, hm]
        simpa [setColList] using ih
      · have hk2 : (c.1 == k) = false := by simpa using hk
        rw [if_neg (by simp [hk2]), findCol_cons, findCol_cons]
        cases hm : c.1 == m with
        | true => simp
        | false => simpa [setColList] using ih

lemma col_setCol_ne (df : DataFrame) (k : String) (v : List Cell) (m : String) (h : m ≠ k) :
    (df.setCol k v).col m = df.col m :=
  findCol_setColList_ne df.cols k v m h

/-- Claim C10: when the selected CSV lacks any of the three designated cleanup
columns, the cleanup step raises `KeyError` before schema validation is ever
reached, so the run ends in the generic unexpected-error branch with exit code
1 — no `SchemaError` with column violations is produced. -/
theorem C10_missing_column_unexpected (df : DataFrame)
    (h : df.col "churn_risk_score" = none ∨ df.col "avg_time_spent" = none ∨
      df.col "avg_frequency_login_days" = none) :
    runDataChecks df = RunOutcome.unexpected ∧ exitCode (runDataChecks df) = 1 := by
  have herr : ∃ e, cleanData df = Except.error e := by
    rcases h with h1 | h2 | h3
    · exact ⟨CleanError.keyError "churn_risk_score", by simp only [cleanData, h1]⟩
    · cases hc : df.col "churn_risk_score" with
      | none => exact ⟨CleanError.keyError "churn_risk_score", by simp only [cleanData, hc]⟩
      | some churn =>
          have h2b : (df.setCol "churn_risk_score" (churn.map replaceNegOne)).col
              "avg_time_spent" = none :=
            (col_setCol_ne df _ _ _ (by decide)).trans h2
          exact ⟨CleanError.keyError "avg_time_spent", by simp only [cleanData, hc, h2b]⟩
    · cases hc : df.col "churn_risk_score" with
      | none => exact ⟨CleanError.keyError "churn_risk_score", by simp only [cleanData, hc]⟩
      | some churn =>
          cases hat : (df.setCol "churn_risk_score" (churn.map replaceNegOne)).col
              "avg_time_spent" with
          | none => exact ⟨CleanError.keyError "avg_time_spent", by simp only [cleanData, hc, hat]⟩
          | some ats =>
              cases hmof : mapOrFail cleanTimeSpent ats with
              | none => exact ⟨CleanError.typeError, by simp only [cleanData, hc, hat, hmof]⟩
              | some ats2 =>
                  have h3b : (((df.setCol "churn_risk_score"
                      (churn.map replaceNegOne)).setCol "avg_time_spent" ats2).col
                      "avg_frequency_login_days") = none :=
                    ((col_setCol_ne _ _ _ _ (by decide)).trans
                      (col_setCol_ne _ _ _ _ (by decide))).trans h3
                  exact ⟨CleanError.keyError "avg_frequency_login_days", by simp only [cleanData, hc, hat, hmof, h3b]⟩
  obtain ⟨e, he⟩ := herr
  refine ⟨?_, ?_⟩ <;> simp [runDataChecks, he, exitCode]

/-- Claim C10 witness: a DataFrame with no columns at all ends in the
unexpected-error branch. -/
theorem C10_missing_column_unexpected_witness :
    runDataChecks { nrows := 0, cols := [] } = RunOutcome.unexpected :=
  (C10_missing_column_unexpected { nrows := 0, cols := [] } (Or.inl rfl)).1

lemma all_replicate (n : Nat) (c : Cell) (p : Cell → Bool) (h : p c = true) :
    (List.replicate n c).all p = true := by
  induction n with
  | zero => rfl
  | succ k ih => simp [List.replicate_succ, h, ih]

lemma mapOrFail_replicate (f : Cell → Option Cell) (a b : Cell) (n : Nat) (h : f a = some b) :
    mapOrFail f (List.replicate n a) = some (List.replicate n b) := by
  induction n with
  | zero => rfl
  | succ k ih => simp [List.replicate_succ, mapOrFail, h, ih]

lemma filterMap_num_replicate (n : Nat) (q : ℚ) :
    (List.replicate n (Cell.num q)).filterMap
      (fun c => match c with | Cell.num q => some q | _ => none) = List.replicate n q := by
  induction n with
  | zero => rfl
  | succ k ih => simp [List.replicate_succ, List.filterMap_cons, ih]

lemma churnMean_replicate (n : Nat) (q : ℚ) (hn : 0 < n) :
    churnMean (List.replicate n (Cell.num q)) = some q := by
  obtain ⟨k, rfl⟩ : ∃ k, n = k + 1 := ⟨n - 1, by omega⟩
  unfold churnMean
  rw [filterMap_num_replicate]
  simp only [List.replicate_succ, List.isEmpty_cons, Bool.false_eq_true, if_false]
  rw [← List.replicate_succ, List.sum_replicate, List.length_replicate, nsmul_eq_mul]
  congr 1
  exact mul_div_cancel_left₀ q (Nat.cast_ne_zero.mpr (by omega))

lemma uniqueIds_nodup (n : Nat) : (uniqueIds n).Nodup := by
  unfold uniqueIds
  refine (List.nodup_range n).map ?_
  intro i j hij
  simp only [Cell.str.injEq] at hij
  have h2 : List.replicate i 'a' = List.replicate j 'a' := congrArg String.data hij
  simpa using congrArg List.length h2

lemma all_uniqueIds (n : Nat) (chk : Cell → Bool) (h : ∀ s, chk (Cell.str s) = true) :
    (uniqueIds n).all chk = true := by
  unfold uniqueIds
  rw [List.all_eq_true]
  intro c hc
  obtain ⟨i, _, rfl⟩ := List.mem_map.mp hc
  exact h _

lemma spec_passes (df : DataFrame) (name : String) (chk : Cell → Bool) (cells : List Cell)
    (hcol : df.col name = some cells) (hall : cells.all chk = true) :
    (match df.col name with
     | none => some name
     | some cells => if cells.all chk then none else some name) = none := by
  rw [hcol]
  simp [hall]

lemma schemaViolations_syntheticDf (n : Nat) (q : ℚ) (hq : intCheck 0 5 (Cell.num q) = true) :
    schemaViolations (syntheticDf n (Cell.num q)) = [] := by
  unfold schemaViolations
  rw [List.filterMap_eq_nil_iff]
  intro spec hspec
  simp only [SCHEMA, List.mem_cons, List.not_mem_nil, or_false] at hspec
  rcases hspec with rfl | rfl | rfl | rfl | rfl | rfl | rfl | rfl | rfl | rfl | rfl | rfl | rfl |
    rfl | rfl | rfl | rfl | rfl | rfl | rfl | rfl | rfl | rfl | rfl | rfl
  · exact spec_passes (syntheticDf n (Cell.num q)) "customer_id" (requiredCheck isStrCell)
      (uniqueIds n) rfl (all_uniqueIds n _ (fun s => rfl))
  · exact spec_passes (syntheticDf n (Cell.num q)) "Name" (requiredCheck isStrCell)
      (List.replicate n (Cell.str "A")) rfl (all_replicate n _ _ (by decide))
  · exact spec_passes (syntheticDf n (Cell.num q)) "age" (requiredCheck (intCheck 0 120))
      (List.replicate n (Cell.num 30)) rfl (all_replicate n _ _ (by decide))
  · exact spec_passes (syntheticDf n (Cell.num q)) "gender" (nullableCheck (strIn ["M", "F"]))
      (List.replicate n (Cell.str "M")) rfl (all_replicate n _ _ (by decide))
  · exact spec_passes (syntheticDf n (Cell.num q)) "security_no" (requiredCheck isStrCell)
      (List.replicate n (Cell.str "S1")) rfl (all_replicate n _ _ (by decide))
  · exact spec_passes (syntheticDf n (Cell.num q)) "region_category" (nullableCheck isStrCell)
      (List.replicate n (Cell.str "City")) rfl (all_replicate n _ _ (by decide))
  · exact spec_passes (syntheticDf n (Cell.num q)) "membership_category" (requiredCheck isStrCell)
      (List.replicate n (Cell.str "Basic Membership")) rfl (all_replicate n _ _ (by decide))
  · exact spec_passes (syntheticDf n (Cell.num q)) "joining_date" (requiredCheck isStrCell)
      (List.replicate n (Cell.str "2020-01-01")) rfl (all_replicate n _ _ (by decide))
  · exact spec_passes (syntheticDf n (Cell.num q)) "joined_through_referral" (nullableCheck (strIn ["Yes", "No", "?"]))
      (List.replicate n (Cell.str "Yes")) rfl (all_replicate n _ _ (by decide))
  · exact spec_passes (syntheticDf n (Cell.num q)) "referral_id" (nullableCheck isStrCell)
      (List.replicate n (Cell.str "R1")) rfl (all_replicate n _ _ (by decide))
  · exact spec_passes (syntheticDf n (Cell.num q)) "preferred_offer_types" (requiredCheck isStrCell)
      (List.replicate n (Cell.str "Gift Vouchers")) rfl (all_replicate n _ _ (by decide))
  · exact spec_passes (syntheticDf n (Cell.num q)) "medium_of_operation" (nullableCheck isStrCell)
      (List.replicate n (Cell.str "Desktop")) rfl (all_replicate n _ _ (by decide))
  · exact spec_passes (syntheticDf n (Cell.num q)) "internet_option" (requiredCheck isStrCell)
      (List.replicate n (Cell.str "Wi-Fi")) rfl (all_replicate n _ _ (by decide))
  · exact spec_passes (syntheticDf n (Cell.num q)) "last_visit_time" (requiredCheck isStrCell)
      (List.replicate n (Cell.str "12:00:00")) rfl (all_replicate n _ _ (by decide))
  · exact spec_passes (syntheticDf n (Cell.num q)) "days_since_last_login" (nullableCheck (intGe 0))
      (List.replicate n (Cell.num 3)) rfl (all_replicate n _ _ (by decide))
  · exact spec_passes (syntheticDf n (Cell.num q)) "avg_time_spent" (nullableCheck numCell)
      (List.replicate n (Cell.num 50)) rfl (all_replicate n _ _ (by decide))
  · exact spec_passes (syntheticDf n (Cell.num q)) "avg_transaction_value" (nullableCheck numCell)
      (List.replicate n (Cell.num 900)) rfl (all_replicate n _ _ (by decide))
  · exact spec_passes (syntheticDf n (Cell.num q)) "avg_frequency_login_days" (nullableCheck (numGe 0))
      (List.replicate n (Cell.num 10)) rfl (all_replicate n _ _ (by decide))
  · exact spec_passes (syntheticDf n (Cell.num q)) "points_in_wallet" (nullableCheck (numGe 0))
      (List.replicate n (Cell.num 600)) rfl (all_replicate n _ _ (by decide))
  · exact spec_passes (syntheticDf n (Cell.num q)) "used_special_discount" (requiredCheck (strIn ["Yes", "No"]))
      (List.replicate n (Cell.str "Yes")) rfl (all_replicate n _ _ (by decide))
  · exact spec_passes (syntheticDf n (Cell.num q)) "offer_application_preference" (requiredCheck (strIn ["Yes", "No"]))
      (List.replicate n (Cell.str "No")) rfl (all_replicate n _ _ (by decide))
  · exact spec_passes (syntheticDf n (Cell.num q)) "past_complaint" (requiredCheck (strIn ["Yes", "No"]))
      (List.replicate n (Cell.str "No")) rfl (all_replicate n _ _ (by decide))
  · exact spec_passes (syntheticDf n (Cell.num q)) "complaint_status" (requiredCheck isStrCell)
      (List.replicate n (Cell.str "Not Applicable")) rfl (all_replicate n _ _ (by decide))
  · exact spec_passes (syntheticDf n (Cell.num q)) "feedback" (requiredCheck isStrCell)
      (List.replicate n (Cell.str "Good")) rfl (all_replicate n _ _ (by decide))
  · exact spec_passes (syntheticDf n (Cell.num q)) "churn_risk_score"
      (nullableCheck (intCheck 0 5)) (List.replicate n (Cell.num q)) rfl
      (all_replicate n _ _ hq)


lemma cleanData_eq (df : DataFrame) (churn ats2 afl : List Cell)
    (h1 : df.col "churn_risk_score" = some churn)
    (h2 : (df.setCol "churn_risk_score" (churn.map replaceNegOne)).col "avg_time_spent" =
      some ats2)
    (h3 : mapOrFail cleanTimeSpent ats2 = some ats2)
    (h4 : ((df.setCol "churn_risk_score" (churn.map replaceNegOne)).setCol "avg_time_spent"
        ats2).col "avg_frequency_login_days" = some afl) :
    cleanData df = Except.ok
      (((df.setCol "churn_risk_score" (churn.map replaceNegOne)).setCol "avg_time_spent"
        ats2).setCol "avg_frequency_login_days" (afl.map toNumericCoerce)) := by
  simp only [cleanData, h1, h2, h3, h4]

lemma cleanData_syntheticDf (n : Nat) (q : ℚ) (hne : q ≠ -1) :
    cleanData (syntheticDf n (Cell.num q)) = Except.ok (syntheticDf n (Cell.num q)) := by
  have hrep : (List.replicate n (Cell.num q)).map replaceNegOne =
      List.replicate n (Cell.num q) := by
    rw [List.map_replicate]
    simp [replaceNegOne, hne]
  have h1 : (syntheticDf n (Cell.num q)).col "churn_risk_score" =
      some (List.replicate n (Cell.num q)) := rfl
  have h2 : ((syntheticDf n (Cell.num q)).setCol "churn_risk_score"
      ((List.replicate n (Cell.num q)).map replaceNegOne)).col "avg_time_spent" =
      some (List.replicate n (Cell.num 50)) :=
    col_setCol_ne _ _ _ _ (by decide)
  have h3 : mapOrFail cleanTimeSpent (List.replicate n (Cell.num 50)) =
      some (List.replicate n (Cell.num 50)) := mapOrFail_replicate _ _ _ n rfl
  have h4 : (((syntheticDf n (Cell.num q)).setCol "churn_risk_score"
      ((List.replicate n (Cell.num q)).map replaceNegOne)).setCol "avg_time_spent"
      (List.replicate n (Cell.num 50))).col "avg_frequency_login_days" =
      some (List.replicate n (Cell.num 10)) :=
    (col_setCol_ne _ _ _ _ (by decide)).trans (col_setCol_ne _ _ _ _ (by decide))
  rw [cleanData_eq (syntheticDf n (Cell.num q)) _ _ _ h1 h2 h3 h4, hrep, List.map_replicate]
  rfl

lemma sanityChecks_eq (df : DataFrame) (ids churn : List Cell) (mq : ℚ)
    (hrow : 100 < df.nrows)
    (h1 : df.col "customer_id" = some ids)
    (hnodup : ids.Nodup)
    (h2 : df.col "churn_risk_score" = some churn)
    (hmean : churnMean churn = some mq) :
    sanityChecks df =
      if 1 ≤ mq ∧ mq ≤ 4 then RunOutcome.success else RunOutcome.sanityChurnMean := by
  simp only [sanityChecks, if_neg (Nat.not_le.mpr hrow), h1, decide_eq_true hnodup,
    Bool.not_true, Bool.false_eq_true, if_false, h2, hmean]
  by_cases hb : 1 ≤ mq ∧ mq ≤ 4
  · rw [if_pos (by simp [hb.1, hb.2]), if_pos hb]
  · rw [if_neg ?_, if_neg hb]
    simp only [Bool.and_eq_true, decide_eq_true_eq]
    exact fun hc => hb ⟨hc.1, hc.2⟩

lemma runDataChecks_syntheticDf (n : Nat) (q : ℚ) (hn : 100 < n)
    (hq : intCheck 0 5 (Cell.num q) = true) (hne : q ≠ -1) :
    runDataChecks (syntheticDf n (Cell.num q)) =
      if 1 ≤ q ∧ q ≤ 4 then RunOutcome.success else RunOutcome.sanityChurnMean := by
  simp only [runDataChecks, cleanData_syntheticDf n q hne, schemaViolations_syntheticDf n q hq,
    List.isEmpty_nil, if_true]
  exact sanityChecks_eq (syntheticDf n (Cell.num q)) (uniqueIds n)
    (List.replicate n (Cell.num q)) q hn rfl (uniqueIds_nodup n) rfl
    (churnMean_replicate n q (by omega))

/-- Claim C1 counterexample: on the 150-row synthetic input whose outcome
column is constant 1 (unique identifiers, schema-conforming values), all
checks pass and the run succeeds with exit code 0 — no `SanityError` is
raised, because the mean churn risk score is 1.0, which satisfies the code's
`1.0 <= mean <= 4.0` bound. -/
theorem C1_counterexample :
    runDataChecks (syntheticDf 150 (Cell.num 1)) = RunOutcome.success ∧
    exitCode (runDataChecks (syntheticDf 150 (Cell.num 1))) = 0 := by
  have h := runDataChecks_syntheticDf 150 1 (by omega) (by decide) (by decide)
  rw [if_pos (by norm_num)] at h
  exact ⟨h, by rw [h]; rfl⟩

/-- Claim C1 (amended): the outcome column is a 0–5 risk score whose mean is
checked against the fixed range `[1.0, 4.0]`, not a binary churn rate against
`(0.01, 0.99)`.  A 150-row input with the outcome column constant 1 has mean
1.0, inside the range, and passes; for the sanity failure the claim describes,
take the column constant 0: the mean 0.0 lies outside the range, and the run
fails citing the churn-mean check — a sanity failure, not a schema error
(every schema check passes on this input). -/
theorem C1_amended :
    runDataChecks (syntheticDf 150 (Cell.num 0)) = RunOutcome.sanityChurnMean ∧
    exitCode (runDataChecks (syntheticDf 150 (Cell.num 0))) = 1 := by
  have h := runDataChecks_syntheticDf 150 0 (by omega) (by decide) (by decide)
  rw [if_neg (by norm_num)] at h
  exact ⟨h, by rw [h]; rfl⟩

/-- Claim C8 counterexample: an 80-row input that also violates the schema
(outcome column constant 7, above the declared maximum of 5) fails with a
`SchemaError` naming the violating column, not with a `SanityError` citing the
row count — schema validation runs before the sanity checks, so the row-count
failure is not reported "regardless of whether schema checks pass". -/
theorem C8_counterexample :
    runDataChecks (syntheticDf 80 (Cell.num 7)) =
      RunOutcome.schemaFailure ["churn_risk_score"] ∧
    exitCode (runDataChecks (syntheticDf 80 (Cell.num 7))) = 1 := by
  constructor <;> decide

/-- Claim C8 (amended): an 80-row input that passes cleanup and schema
validation fails with a `SanityError` citing the row count (the floor is 100);
when schema checks fail, a `SchemaError` is reported first instead.  A
well-formed 120-row input with unique identifiers and outcome column constant
1 (mean 1.0, inside the plausible range) passes all checks with exit code 0. -/
theorem C8_amended :
    (∀ df cleaned, cleanData df = Except.ok cleaned → schemaViolations cleaned = [] →
      cleaned.nrows = 80 → runDataChecks df = RunOutcome.sanityRowCount) ∧
    runDataChecks (syntheticDf 120 (Cell.num 1)) = RunOutcome.success ∧
    exitCode (runDataChecks (syntheticDf 120 (Cell.num 1))) = 0 := by
  have h120 := runDataChecks_syntheticDf 120 1 (by omega) (by decide) (by decide)
  rw [if_pos (by norm_num)] at h120
  refine ⟨?_, h120, by rw [h120]; rfl⟩
  intro df cleaned hclean hviol hn
  simp only [runDataChecks, hclean, hviol, List.isEmpty_nil, if_true]
  simp only [sanityChecks, hn]
  rw [if_pos (by omega)]

/-- Claim C8 witness: a concrete 80-row schema-conforming input hits the
row-count sanity failure. -/
theorem C8_amended_witness :
    runDataChecks (syntheticDf 80 (Cell.num 1)) = RunOutcome.sanityRowCount :=
  C8_amended.1 (syntheticDf 80 (Cell.num 1)) (syntheticDf 80 (Cell.num 1))
    (cleanData_syntheticDf 80 1 (by decide)) (schemaViolations_syntheticDf 80 1 (by decide)) rfl

end Churn
